import Mathlib

/-!
Shallow embedding of the job-lifecycle, quota, and dispatcher logic of the
python-file-compressor repository:
  * `src/models/processing_job.py` (class `ProcessingJob`),
  * `src/models/user.py` (class `User`),
  * `src/services/pdf_processor.py` (class `PDFProcessor`).

Modelling conventions: wall-clock time (`datetime.utcnow()`) is an explicit
integer parameter `now`, measured in seconds; dates are integers (days);
byte sizes are `Int`; Python float division in `complete_processing` is
modelled exactly with `ℚ`; methods that mutate `self` become functions
`... → Job → Job` (returning the updated record, paired with the Python
return value where there is one).
-/

namespace FileCompressor

/-- Columns of the `ProcessingJob` model (src/models/processing_job.py). -/
structure Job where
  original_filename : String
  processed_filename : Option String
  original_size : Int
  processed_size : Option Int
  compression_ratio : Option ℚ
  quality_preset : String
  status : String
  created_at : Int
  started_at : Option Int
  completed_at : Option Int
  expires_at : Int
  error_message : Option String
  retry_count : Int
  upload_path : String
  processed_path : Option String
  deriving Repr, DecidableEq

/-- Source `ProcessingJob.is_expired`: `datetime.utcnow() > self.expires_at`. -/
def is_expired (now : Int) (j : Job) : Bool :=
  decide (now > j.expires_at)

/-- Source `ProcessingJob.start_processing`: sets status and started_at, no guard. -/
def start_processing (now : Int) (j : Job) : Job :=
  { j with status := "processing", started_at := some now }

/-- Source `ProcessingJob.complete_processing`: sets status, completed_at,
processed_size, processed_path, and — only when `original_size > 0` —
the compression ratio `processed_size / original_size`. -/
def complete_processing (now : Int) (psize : Int) (ppath : String) (j : Job) : Job :=
  let j2 := { j with status := "completed", completed_at := some now,
                     processed_size := some psize, processed_path := some ppath }
  if j.original_size > 0 then
    { j2 with compression_ratio := some ((psize : ℚ) / (j.original_size : ℚ)) }
  else
    j2

/-- Source `ProcessingJob.fail_processing`. -/
def fail_processing (now : Int) (msg : String) (j : Job) : Job :=
  { j with status := "failed", error_message := some msg,
           completed_at := some now, retry_count := j.retry_count + 1 }

/-- Source `ProcessingJob.expire_job`: returns `False` and does nothing unless the
job is past `expires_at`; otherwise sets status to `expired` and returns
`True`. -/
def expire_job (now : Int) (j : Job) : Bool × Job :=
  if ¬ is_expired now j then (false, j)
  else (true, { j with status := "expired" })

/-- Source `ProcessingJob.can_retry` (default `max_retries=3`). -/
def can_retry (now : Int) (j : Job) (max_retries : Int := 3) : Bool :=
  j.status == "failed" && decide (j.retry_count < max_retries) && ! is_expired now j

/-- Source `ProcessingJob.reset_for_retry`: returns `False` and does nothing unless
`can_retry()`; otherwise resets status to `pending` and clears started_at,
completed_at, error_message (retry_count is untouched). -/
def reset_for_retry (now : Int) (j : Job) : Bool × Job :=
  if ¬ can_retry now j then (false, j)
  else (true, { j with status := "pending", started_at := none,
                       completed_at := none, error_message := none })

/-- The `timedelta(minutes=10)` used by `cleanup_stalled_jobs`, in seconds. -/
def stallTimeout : Int := 10 * 60

/-- Per-job effect of `ProcessingJob.cleanup_stalled_jobs`: jobs matching the
query (status `pending`, created before `now - 10min`) are failed with the
fixed message; all other jobs are untouched by the sweep. -/
def stalledUpdate (now : Int) (j : Job) : Job :=
  if j.status == "pending" && decide (j.created_at < now - stallTimeout) then
    { j with status := "failed",
             error_message := some "Processing timed out - job was stuck in pending state",
             completed_at := some now }
  else j

/-- Source `ProcessingJob.cleanup_stalled_jobs` over a table of jobs. -/
def cleanup_stalled_jobs (now : Int) (jobs : List Job) : List Job :=
  jobs.map (stalledUpdate now)

/-- Per-job effect of `ProcessingJob.cleanup_expired_jobs`: every job with
`expires_at < now` gets `expire_job` applied. -/
def cleanup_expired_jobs (now : Int) (jobs : List Job) : List Job :=
  jobs.map (fun j => if decide (j.expires_at < now) then (expire_job now j).2 else j)

/-- A freshly created job as the admission flow builds it: status `pending`,
no processed data, no timestamps besides created_at/expires_at, retry_count 0
(defaults of the `ProcessingJob` columns). -/
def newJob (filename : String) (osize : Int) (preset : String)
    (created expires : Int) (upath : String) : Job :=
  { original_filename := filename
    processed_filename := none
    original_size := osize
    processed_size := none
    compression_ratio := none
    quality_preset := preset
    status := "pending"
    created_at := created
    started_at := none
    completed_at := none
    expires_at := expires
    error_message := none
    retry_count := 0
    upload_path := upath
    processed_path := none }

/-- One application of a state-machine operation to a job. -/
inductive Step : Job → Job → Prop where
  | start (now : Int) (j : Job) : Step j (start_processing now j)
  | complete (now psize : Int) (ppath : String) (j : Job) :
      Step j (complete_processing now psize ppath j)
  | fail (now : Int) (msg : String) (j : Job) : Step j (fail_processing now msg j)
  | expire (now : Int) (j : Job) : Step j (expire_job now j).2
  | retry (now : Int) (j : Job) : Step j (reset_for_retry now j).2
  | stall (now : Int) (j : Job) : Step j (stalledUpdate now j)

/-- Jobs reachable from a fresh job through the state-machine operations. -/
inductive Reachable : Job → Prop where
  | init (filename : String) (osize : Int) (preset : String)
      (created expires : Int) (upath : String) :
      Reachable (newJob filename osize preset created expires upath)
  | step {j j2 : Job} : Reachable j → Step j j2 → Reachable j2

/-- Rate-limiting columns of the `User` model (src/models/user.py). -/
structure User where
  daily_file_count : Int
  daily_storage_used : Int
  session_storage_used : Int
  last_reset_date : Int
  deriving Repr, DecidableEq

/-- Source `User.reset_daily_counters_if_needed`: lazy daily reset, fires when
`last_reset_date < today`. -/
def reset_daily_counters_if_needed (today : Int) (u : User) : User :=
  if u.last_reset_date < today then
    { u with daily_file_count := 0, daily_storage_used := 0, last_reset_date := today }
  else u

/-- Source `User.can_upload_file`: lazy reset, then the three quota checks in
source order; returns the updated user together with the (allowed, reason)
pair the Python method returns. -/
def can_upload_file (today : Int)
    (file_size daily_file_limit daily_storage_limit_mb session_storage_limit_mb : Int)
    (u : User) : User × Bool × String :=
  let u2 := reset_daily_counters_if_needed today u
  let daily_storage_limit_bytes := daily_storage_limit_mb * 1024 * 1024
  let session_storage_limit_bytes := session_storage_limit_mb * 1024 * 1024
  if u2.daily_file_count ≥ daily_file_limit then
    (u2, false, "Daily file limit of " ++ toString daily_file_limit ++ " files exceeded")
  else if u2.daily_storage_used + file_size > daily_storage_limit_bytes then
    (u2, false, "Daily storage limit of " ++ toString daily_storage_limit_mb ++ "MB exceeded")
  else if u2.session_storage_used + file_size > session_storage_limit_bytes then
    (u2, false, "Session storage limit of " ++ toString session_storage_limit_mb ++ "MB exceeded")
  else
    (u2, true, "Upload allowed")

/-- Source `User.update_usage_counters`. -/
def update_usage_counters (file_size : Int) (u : User) : User :=
  { u with daily_file_count := u.daily_file_count + 1,
           daily_storage_used := u.daily_storage_used + file_size,
           session_storage_used := u.session_storage_used + file_size }

/-- Source `User.clear_session_storage`. -/
def clear_session_storage (u : User) : User :=
  { u with session_storage_used := 0 }

/-- Outcome of one Ghostscript invocation, as observed by
`PDFProcessor._execute_ghostscript`. -/
inductive GsOutcome where
  | exited (code : Int)
  | timeout
  | gsNotFound
  | execError (msg : String)
  deriving Repr, DecidableEq

/-- Source `PDFProcessor._execute_ghostscript`: `True` exactly on return code 0;
timeout, missing binary and unexpected exceptions all yield `False`. -/
def execute_ghostscript : GsOutcome → Bool
  | .exited code => code == 0
  | .timeout => false
  | .gsNotFound => false
  | .execError _ => false

/-- Source `PDFProcessor.process_pdf` acting on the job record: start the job, then
fail on an invalid preset (the `ValueError` reaches the catch-all which calls
`fail_processing(str(e))`), then complete iff `_execute_ghostscript` succeeded
AND the output file exists, else fail with the fixed message.  The returned
`Bool` is the returned `success` flag.  The output size is read but never
checked. -/
def process_pdf (now : Int) (presetValid : Bool) (presetName : String)
    (gs : GsOutcome) (outputExists : Bool) (outputSize : Int) (relPath : String)
    (j : Job) : Job × Bool :=
  let j1 := start_processing now j
  if presetValid = false then
    (fail_processing now ("Invalid quality preset: " ++ presetName) j1, false)
  else if execute_ghostscript gs && outputExists then
    (complete_processing now outputSize relPath j1, true)
  else
    (fail_processing now "Ghostscript processing failed" j1, false)

/-! Concrete sample records used in counterexamples and witnesses. -/

/-- A sample job with a chosen status (all other columns as freshly created). -/
def jDemo (st : String) : Job :=
  { newJob "a.pdf" 100 "medium" 0 86400 "up/a.pdf" with status := st }

/-- A failed job whose `expires_at` is exactly 100. -/
def jBoundary : Job :=
  { newJob "b.pdf" 100 "medium" 0 100 "up/b.pdf" with status := "failed" }

/-- A fresh job with `original_size = 100`. -/
def jSize100 : Job := newJob "c.pdf" 100 "medium" 0 86400 "up/c.pdf"

/-- A fresh job with `original_size = 0`. -/
def jSize0 : Job := newJob "d.pdf" 0 "medium" 0 86400 "up/d.pdf"

/-- A failed, non-expired job with one retry spent. -/
def jFailed : Job :=
  { newJob "e.pdf" 100 "medium" 0 1000 "up/e.pdf" with
      status := "failed", retry_count := 1, error_message := some "boom",
      started_at := some 8, completed_at := some 9 }

/-- The `can_retry` check in propositional form. -/
theorem can_retry_iff (now : Int) (j : Job) (mr : Int) :
    can_retry now j mr = true ↔
      (j.status = "failed" ∧ j.retry_count < mr ∧ now ≤ j.expires_at) := by
  simp [can_retry, is_expired, and_assoc, not_lt]

/-- C1 counterexample: on a job whose status is `completed` (not `pending`),
`start_processing` does not fail — it silently mutates the job, setting
status to `processing` and `started_at`. -/
theorem claim1_counterexample :
    (jDemo "completed").status ≠ "pending" ∧
    (start_processing 5 (jDemo "completed")).status = "processing" ∧
    (start_processing 5 (jDemo "completed")).started_at = some 5 ∧
    start_processing 5 (jDemo "completed") ≠ jDemo "completed" := by
  decide

/-- C1 (amended): `start_processing` unconditionally sets status to
`processing` and `started_at` to now, for every job regardless of its
current status; no status check is performed and no error is signalled;
every other field is unchanged. -/
theorem claim1_thm (now : Int) (j : Job) :
    (start_processing now j).status = "processing" ∧
    (start_processing now j).started_at = some now ∧
    (start_processing now j).original_filename = j.original_filename ∧
    (start_processing now j).processed_filename = j.processed_filename ∧
    (start_processing now j).original_size = j.original_size ∧
    (start_processing now j).processed_size = j.processed_size ∧
    (start_processing now j).compression_ratio = j.compression_ratio ∧
    (start_processing now j).quality_preset = j.quality_preset ∧
    (start_processing now j).created_at = j.created_at ∧
    (start_processing now j).completed_at = j.completed_at ∧
    (start_processing now j).expires_at = j.expires_at ∧
    (start_processing now j).error_message = j.error_message ∧
    (start_processing now j).retry_count = j.retry_count ∧
    (start_processing now j).upload_path = j.upload_path ∧
    (start_processing now j).processed_path = j.processed_path := by
  simp [start_processing]

/-- C4 counterexample: at the boundary `now = expires_at` (so `now ≥
expires_at`), a failed job with `retry_count = 0 < max_retries` can still be
retried: `is_expired` uses the strict comparison `now > expires_at`. -/
theorem claim4_counterexample :
    jBoundary.expires_at ≤ 100 ∧ jBoundary.retry_count < 3 ∧
    (reset_for_retry 100 jBoundary).1 = true ∧
    (reset_for_retry 100 jBoundary).2.status = "pending" := by
  decide

/-- C4 (amended): `can_retry` is true iff status = `failed` AND retry_count <
max_retries AND now ≤ expires_at; hence `reset_for_retry` never succeeds when
retry_count ≥ max_retries (default 3) or when now > expires_at — but it may
succeed at the boundary now = expires_at, since expiry is the strict
`now > expires_at`. -/
theorem claim4_thm (now : Int) (j : Job) (mr : Int) :
    (can_retry now j mr = true ↔
      (j.status = "failed" ∧ j.retry_count < mr ∧ now ≤ j.expires_at)) ∧
    (3 ≤ j.retry_count ∨ j.expires_at < now → (reset_for_retry now j).1 = false) := by
  refine ⟨can_retry_iff now j mr, ?_⟩
  intro h
  unfold reset_for_retry
  rw [if_pos]
  · intro hc
    obtain ⟨_, h2, h3⟩ := (can_retry_iff now j 3).mp hc
    rcases h with h | h <;> omega

/-- C4 witness: a job with `retry_count = 5` cannot be retried. -/
theorem claim4_witness :
    (3 : Int) ≤ ({ jFailed with retry_count := 5 } : Job).retry_count ∧
    (reset_for_retry 5 { jFailed with retry_count := 5 }).1 = false := by
  refine ⟨by decide, (claim4_thm 5 { jFailed with retry_count := 5 } 3).2 (Or.inl (by decide))⟩

/-- C5: `complete_processing` sets `processed_size`/`processed_path`, and sets
`compression_ratio = processed_size / original_size` exactly whenever
`original_size > 0`; when `original_size = 0` the division is skipped, so the
ratio stays at its previous value (null for any job it was never set on). -/
theorem claim5_thm (now psize : Int) (ppath : String) (j : Job) :
    (complete_processing now psize ppath j).status = "completed" ∧
    (complete_processing now psize ppath j).processed_size = some psize ∧
    (complete_processing now psize ppath j).processed_path = some ppath ∧
    (0 < j.original_size →
      (complete_processing now psize ppath j).compression_ratio =
        some ((psize : ℚ) / (j.original_size : ℚ))) ∧
    (j.original_size = 0 → j.compression_ratio = none →
      (complete_processing now psize ppath j).compression_ratio = none) := by
  refine ⟨?_, ?_, ?_, ?_, ?_⟩ <;> unfold complete_processing
  · split <;> rfl
  · split <;> rfl
  · split <;> rfl
  · intro h
    rw [if_pos h]
  · intro h hr
    rw [if_neg (by omega)]
    exact hr

/-- C5 witness: a 100-byte job completed at 50 bytes gets ratio 50/100; a
0-byte job keeps a null ratio. -/
theorem claim5_witness :
    (0 : Int) < jSize100.original_size ∧
    (complete_processing 7 50 "proc/c.pdf" jSize100).compression_ratio =
      some ((50 : ℚ) / (100 : ℚ)) ∧
    jSize0.original_size = 0 ∧ jSize0.compression_ratio = none ∧
    (complete_processing 7 50 "proc/d.pdf" jSize0).compression_ratio = none := by
  refine ⟨by decide, ?_, by decide, by decide, ?_⟩
  · have h := (claim5_thm 7 50 "proc/c.pdf" jSize100).2.2.2.1 (by decide)
    simpa [jSize100, newJob] using h
  · exact (claim5_thm 7 50 "proc/d.pdf" jSize0).2.2.2.2 (by decide) (by decide)

/-- C7: on a retryable job, `reset_for_retry` returns True, resets status to
`pending`, clears started_at/completed_at/error_message, and leaves
retry_count and every file-descriptor field unchanged. -/
theorem claim7_thm (now : Int) (j : Job) (h : can_retry now j = true) :
    (reset_for_retry now j).1 = true ∧
    (reset_for_retry now j).2.status = "pending" ∧
    (reset_for_retry now j).2.started_at = none ∧
    (reset_for_retry now j).2.completed_at = none ∧
    (reset_for_retry now j).2.error_message = none ∧
    (reset_for_retry now j).2.retry_count = j.retry_count ∧
    (reset_for_retry now j).2.original_filename = j.original_filename ∧
    (reset_for_retry now j).2.original_size = j.original_size ∧
    (reset_for_retry now j).2.upload_path = j.upload_path ∧
    (reset_for_retry now j).2.quality_preset = j.quality_preset ∧
    (reset_for_retry now j).2.processed_filename = j.processed_filename ∧
    (reset_for_retry now j).2.processed_size = j.processed_size ∧
    (reset_for_retry now j).2.processed_path = j.processed_path ∧
    (reset_for_retry now j).2.compression_ratio = j.compression_ratio ∧
    (reset_for_retry now j).2.created_at = j.created_at ∧
    (reset_for_retry now j).2.expires_at = j.expires_at := by
  unfold reset_for_retry
  rw [if_neg (not_not_intro h)]
  simp

/-- C7 witness: a concrete retryable failed job. -/
theorem claim7_witness :
    can_retry 5 jFailed = true ∧
    (reset_for_retry 5 jFailed).2.status = "pending" ∧
    (reset_for_retry 5 jFailed).2.retry_count = 1 := by
  have h : can_retry 5 jFailed = true := by decide
  have h2 := claim7_thm 5 jFailed h
  refine ⟨h, h2.2.1, ?_⟩
  rw [h2.2.2.2.2.2.1]
  decide

/-- C10: the guarded operations fail atomically as no-ops: `expire_job` on a
non-expired job and `reset_for_retry` on a non-retryable job each return
False and leave the job record exactly as it was. -/
theorem claim10_thm (now : Int) (j : Job) :
    (is_expired now j = false → expire_job now j = (false, j)) ∧
    (can_retry now j = false → reset_for_retry now j = (false, j)) := by
  constructor
  · intro h
    unfold expire_job
    rw [if_pos (by simp [h])]
  · intro h
    unfold reset_for_retry
    rw [if_pos (by simp [h])]

/-- C10 witness: a fresh processing job is neither expired nor retryable, and
both guarded operations leave it untouched. -/
theorem claim10_witness :
    is_expired 5 (jDemo "processing") = false ∧
    expire_job 5 (jDemo "processing") = (false, jDemo "processing") ∧
    can_retry 5 (jDemo "processing") = false ∧
    reset_for_retry 5 (jDemo "processing") = (false, jDemo "processing") := by
  have h := claim10_thm 5 (jDemo "processing")
  exact ⟨by decide, h.1 (by decide), by decide, h.2 (by decide)⟩

/-- A job that completed and was then expired by the sweeper: built from a
fresh job by `complete_processing` then `expire_job` past `expires_at`. -/
def jExpired : Job :=
  (expire_job 100000
    (complete_processing 5 50 "proc/a.pdf" (newJob "a.pdf" 100 "medium" 0 864 "up/a.pdf"))).2

/-- A job taken through start then complete from a fresh job. -/
def jW2 : Job :=
  complete_processing 9 40 "proc/f.pdf"
    (start_processing 6 (newJob "f.pdf" 80 "low" 0 86400 "up/f.pdf"))

/-- C2 counterexample: a reachable job (complete, then expire once past
`expires_at`) whose status is `expired` while `processed_size` and
`processed_path` are still set — `expire_job` never clears them, so the
"non-null iff completed" invariant fails. -/
theorem claim2_counterexample :
    Reachable jExpired ∧ jExpired.status = "expired" ∧
    jExpired.processed_size = some 50 ∧ jExpired.processed_path = some "proc/a.pdf" := by
  refine ⟨?_, by decide, by decide, by decide⟩
  exact Reachable.step
    (Reachable.step (Reachable.init "a.pdf" 100 "medium" 0 864 "up/a.pdf")
      (Step.complete 5 50 "proc/a.pdf" _))
    (Step.expire 100000 _)

/-- C2 (amended): for every job reachable through the state-machine
operations, `processed_size` and `processed_path` are non-null whenever
status = `completed` (only `complete_processing` enters that state and it
sets both); the converse fails, since `expire_job` (and the other exits from
`completed`) do not clear the fields. -/
theorem claim2_thm (j : Job) (hr : Reachable j) :
    j.status = "completed" → j.processed_size ≠ none ∧ j.processed_path ≠ none := by
  induction hr with
  | init fn os p c e up =>
      intro hc
      simp [newJob] at hc
  | step hr hs ih =>
      cases hs with
      | start now j1 =>
          intro hc
          simp [start_processing] at hc
      | complete now psize ppath j1 =>
          intro hc
          unfold complete_processing
          split <;> simp
      | fail now msg j1 =>
          intro hc
          simp [fail_processing] at hc
      | expire now j1 =>
          unfold expire_job
          split <;> intro hc
          · exact ih hc
          · simp at hc
      | retry now j1 =>
          unfold reset_for_retry
          split <;> intro hc
          · exact ih hc
          · simp at hc
      | stall now j1 =>
          unfold stalledUpdate
          split <;> intro hc
          · simp at hc
          · exact ih hc

/-- C2 witness: a concrete reachable completed job has both fields set. -/
theorem claim2_witness :
    jW2.status = "completed" ∧ jW2.processed_size ≠ none ∧ jW2.processed_path ≠ none := by
  have hr : Reachable jW2 :=
    Reachable.step
      (Reachable.step (Reachable.init "f.pdf" 80 "low" 0 86400 "up/f.pdf") (Step.start 6 _))
      (Step.complete 9 40 "proc/f.pdf" _)
  have h := claim2_thm jW2 hr (by decide)
  exact ⟨by decide, h.1, h.2⟩

/-- C3 counterexample: with a successful transform (exit code 0) and an
existing but zero-byte output, the job still ends `completed` with
`processed_size = some 0` (the code never checks output size > 0); and on a
timeout the job fails with the fixed message "Ghostscript processing failed",
not a classifying message like "timeout". -/
theorem claim3_counterexample :
    ((process_pdf 3 true "medium" (GsOutcome.exited 0) true 0 "proc/g.pdf"
        (jDemo "pending")).1.status = "completed" ∧
      (process_pdf 3 true "medium" (GsOutcome.exited 0) true 0 "proc/g.pdf"
        (jDemo "pending")).1.processed_size = some 0) ∧
    ((process_pdf 3 true "medium" GsOutcome.timeout true 5 "proc/g.pdf"
        (jDemo "pending")).1.status = "failed" ∧
      (process_pdf 3 true "medium" GsOutcome.timeout true 5 "proc/g.pdf"
        (jDemo "pending")).1.error_message = some "Ghostscript processing failed" ∧
      (process_pdf 3 true "medium" GsOutcome.timeout true 5 "proc/g.pdf"
        (jDemo "pending")).1.error_message ≠ some "timeout") := by
  decide

/-- C3 (amended): the dispatcher marks the job `completed` exactly when the
external transform exits with code 0 (no timeout, binary present, no
exception) AND the output file exists — output size is never checked, a
zero-byte output still completes; in every other outcome the job ends
`failed`, with error_message "Ghostscript processing failed" for execution
failures, or the exception text ("Invalid quality preset: <p>") for an
invalid preset. -/
theorem claim3_thm (now : Int) (presetValid : Bool) (presetName : String)
    (gs : GsOutcome) (outputExists : Bool) (outputSize : Int) (relPath : String)
    (j : Job) :
    ((process_pdf now presetValid presetName gs outputExists outputSize relPath j).2 = true ↔
      (presetValid = true ∧ gs = GsOutcome.exited 0 ∧ outputExists = true)) ∧
    ((process_pdf now presetValid presetName gs outputExists outputSize relPath j).1.status
        = "completed" ↔
      (process_pdf now presetValid presetName gs outputExists outputSize relPath j).2 = true) ∧
    ((process_pdf now presetValid presetName gs outputExists outputSize relPath j).2 = false →
      (process_pdf now presetValid presetName gs outputExists outputSize relPath j).1.status
          = "failed" ∧
      (process_pdf now presetValid presetName gs outputExists outputSize relPath j).1.error_message
          = some (if presetValid = true then "Ghostscript processing failed"
                  else "Invalid quality preset: " ++ presetName)) := by
  unfold process_pdf
  cases presetValid with
  | false => simp [fail_processing, start_processing]
  | true =>
    cases gs with
    | exited code =>
      cases outputExists with
      | false => simp [execute_ghostscript, fail_processing, start_processing]
      | true =>
        by_cases hc : code = 0
        · subst hc
          have hcs : ∀ (ps : Int) (pp : String) (jx : Job),
              (complete_processing now ps pp jx).status = "completed" := by
            intro ps pp jx
            unfold complete_processing
            split <;> rfl
          simp [execute_ghostscript, hcs]
        · simp [execute_ghostscript, hc, fail_processing, start_processing]
    | timeout => simp [execute_ghostscript, fail_processing, start_processing]
    | gsNotFound => simp [execute_ghostscript, fail_processing, start_processing]
    | execError msg => simp [execute_ghostscript, fail_processing, start_processing]

/-- C3 witness: a concrete timeout run ends failed with the fixed message. -/
theorem claim3_witness :
    (process_pdf 3 true "medium" GsOutcome.timeout true 5 "r"
      (jDemo "pending")).1.status = "failed" ∧
    (process_pdf 3 true "medium" GsOutcome.timeout true 5 "r"
      (jDemo "pending")).1.error_message = some "Ghostscript processing failed" := by
  have h := (claim3_thm 3 true "medium" GsOutcome.timeout true 5 "r"
    (jDemo "pending")).2.2 (by decide)
  exact ⟨h.1, by simpa using h.2⟩

/-- A user already at a daily file count of 2. -/
def uDemo : User :=
  { daily_file_count := 2, daily_storage_used := 0, session_storage_used := 0,
    last_reset_date := 10 }

/-- A user at exactly the 100MB daily storage limit. -/
def uStor : User :=
  { daily_file_count := 0, daily_storage_used := 104857600, session_storage_used := 0,
    last_reset_date := 10 }

/-- A user with non-trivial counters and a stale `last_reset_date`. -/
def uSess : User :=
  { daily_file_count := 3, daily_storage_used := 500, session_storage_used := 777,
    last_reset_date := 3 }

/-- A fresh pending job created at time 0. -/
def jStall : Job := newJob "h.pdf" 100 "medium" 0 86400 "up/h.pdf"

/-- Daily reset never touches the session counter. -/
theorem reset_preserves_session (d : Int) (u : User) :
    (reset_daily_counters_if_needed d u).session_storage_used = u.session_storage_used := by
  unfold reset_daily_counters_if_needed
  split <;> rfl

/-- C6 counterexample: at the daily file limit the upload is denied, but the
reason string is "Daily file limit of 2 files exceeded", not the claimed
"daily file limit exceeded". -/
theorem claim6_counterexample :
    uDemo.daily_file_count ≥ 2 ∧
    (can_upload_file 10 1 2 100 100 uDemo).2.1 = false ∧
    (can_upload_file 10 1 2 100 100 uDemo).2.2 = "Daily file limit of 2 files exceeded" ∧
    (can_upload_file 10 1 2 100 100 uDemo).2.2 ≠ "daily file limit exceeded" := by
  decide

/-- C6 (amended): after the lazy daily reset, `can_upload_file` evaluates the
three quota conditions in source order — daily_file_count ≥ daily file limit,
then daily_storage_used + file_size > daily storage limit, then
session_storage_used + file_size > session storage limit — and denies with
the matching formatted reason ("Daily file limit of N files exceeded",
"Daily storage limit of NMB exceeded", "Session storage limit of NMB
exceeded"); otherwise it allows with "Upload allowed". -/
theorem claim6_thm (today fs dfl dsl ssl : Int) (u : User) :
    ((reset_daily_counters_if_needed today u).daily_file_count ≥ dfl →
      (can_upload_file today fs dfl dsl ssl u).2 =
        (false, "Daily file limit of " ++ toString dfl ++ " files exceeded")) ∧
    ((reset_daily_counters_if_needed today u).daily_file_count < dfl →
      (reset_daily_counters_if_needed today u).daily_storage_used + fs > dsl * 1024 * 1024 →
      (can_upload_file today fs dfl dsl ssl u).2 =
        (false, "Daily storage limit of " ++ toString dsl ++ "MB exceeded")) ∧
    ((reset_daily_counters_if_needed today u).daily_file_count < dfl →
      (reset_daily_counters_if_needed today u).daily_storage_used + fs ≤ dsl * 1024 * 1024 →
      (reset_daily_counters_if_needed today u).session_storage_used + fs > ssl * 1024 * 1024 →
      (can_upload_file today fs dfl dsl ssl u).2 =
        (false, "Session storage limit of " ++ toString ssl ++ "MB exceeded")) ∧
    ((reset_daily_counters_if_needed today u).daily_file_count < dfl →
      (reset_daily_counters_if_needed today u).daily_storage_used + fs ≤ dsl * 1024 * 1024 →
      (reset_daily_counters_if_needed today u).session_storage_used + fs ≤ ssl * 1024 * 1024 →
      (can_upload_file today fs dfl dsl ssl u).2 = (true, "Upload allowed")) := by
  simp only [can_upload_file]
  refine ⟨?_, ?_, ?_, ?_⟩
  · intro h1
    rw [if_pos h1]
  · intro h1 h2
    rw [if_neg (by omega), if_pos h2]
  · intro h1 h2 h3
    rw [if_neg (by omega), if_neg (by omega), if_pos h3]
  · intro h1 h2 h3
    rw [if_neg (by omega), if_neg (by omega), if_neg (by omega)]

/-- C6 witness: one byte over the daily storage limit is denied with the
daily-storage reason. -/
theorem claim6_witness :
    (can_upload_file 10 1 5 100 200 uStor).2 =
      (false, "Daily storage limit of 100MB exceeded") := by
  have h := (claim6_thm 10 1 5 100 200 uStor).2.1 (by decide) (by decide)
  exact h.trans (by decide)

/-- C8 counterexample: the stalled-job sweep does fail an old pending job,
but with error_message "Processing timed out - job was stuck in pending
state", not "stalled". -/
theorem claim8_counterexample :
    jStall.status = "pending" ∧ jStall.created_at < 1000 - stallTimeout ∧
    (stalledUpdate 1000 jStall).status = "failed" ∧
    (stalledUpdate 1000 jStall).error_message ≠ some "stalled" ∧
    (stalledUpdate 1000 jStall).error_message =
      some "Processing timed out - job was stuck in pending state" := by
  decide

/-- C8 (amended): one run of the stalled-job sweep transitions every job with
status `pending` and created_at older than the 10-minute stall timeout
directly to `failed` with error_message "Processing timed out - job was stuck
in pending state" (and sets completed_at); every job not meeting both
conditions is left unchanged. -/
theorem claim8_thm (now : Int) (j : Job) :
    (j.status = "pending" → j.created_at < now - stallTimeout →
      stalledUpdate now j =
        { j with status := "failed",
                 error_message :=
                   some "Processing timed out - job was stuck in pending state",
                 completed_at := some now }) ∧
    (¬ (j.status = "pending" ∧ j.created_at < now - stallTimeout) →
      stalledUpdate now j = j) := by
  constructor
  · intro h1 h2
    unfold stalledUpdate
    rw [if_pos (by simp [h1, h2])]
  · intro h
    unfold stalledUpdate
    rw [if_neg (by simpa using h)]

/-- C8 witness: a 1000-second-old pending job is failed by the sweep; a
processing job is untouched. -/
theorem claim8_witness :
    (stalledUpdate 1000 jStall).status = "failed" ∧
    (stalledUpdate 1000 jStall).completed_at = some 1000 ∧
    stalledUpdate 1000 (jDemo "processing") = jDemo "processing" := by
  have h1 := (claim8_thm 1000 jStall).1 (by decide) (by decide)
  have h2 := (claim8_thm 1000 (jDemo "processing")).2 (by decide)
  exact ⟨by rw [h1], by rw [h1], h2⟩

/-- C9: the lazy daily reset zeroes daily_file_count and daily_storage_used
and stamps last_reset_date when the stored date is earlier than today, it
changes nothing exactly when the stored date equals today (for the reachable
states where the stored date is never in the future), and session storage is
preserved across any number of daily resets — only `clear_session_storage`
zeroes it. -/
theorem claim9_thm (u : User) (days : List Int) (today : Int) :
    ((days.foldl (fun a d => reset_daily_counters_if_needed d a) u).session_storage_used
        = u.session_storage_used) ∧
    (u.last_reset_date < today →
      reset_daily_counters_if_needed today u =
        { u with daily_file_count := 0, daily_storage_used := 0,
                 last_reset_date := today }) ∧
    (u.last_reset_date ≤ today →
      (reset_daily_counters_if_needed today u ≠ u ↔ u.last_reset_date ≠ today)) ∧
    (clear_session_storage u).session_storage_used = 0 := by
  refine ⟨?_, ?_, ?_, rfl⟩
  · induction days generalizing u with
    | nil => rfl
    | cons d ds ih =>
        simp only [List.foldl_cons]
        rw [ih (reset_daily_counters_if_needed d u), reset_preserves_session]
  · intro h
    unfold reset_daily_counters_if_needed
    rw [if_pos h]
  · intro hle
    constructor
    · intro hne heq
      apply hne
      unfold reset_daily_counters_if_needed
      rw [if_neg (by omega)]
    · intro hne heq
      have hlt : u.last_reset_date < today := by omega
      have heq2 : ({ u with daily_file_count := 0, daily_storage_used := 0, last_reset_date := today } : User) = u := by
        rw [← heq]
        unfold reset_daily_counters_if_needed
        rw [if_pos hlt]
      have hpr := congrArg User.last_reset_date heq2
      simp at hpr
      omega

/-- C9 witness: three successive resets leave the session counter at 777,
and the first stale-date reset zeroes the daily counters. -/
theorem claim9_witness :
    uSess.last_reset_date < 5 ∧
    (([4, 5, 6] : List Int).foldl
      (fun a d => reset_daily_counters_if_needed d a) uSess).session_storage_used = 777 ∧
    reset_daily_counters_if_needed 5 uSess =
      { uSess with daily_file_count := 0, daily_storage_used := 0, last_reset_date := 5 } ∧
    uSess.last_reset_date ≤ 5 ∧
    (reset_daily_counters_if_needed 5 uSess ≠ uSess ↔ uSess.last_reset_date ≠ 5) := by
  have h := claim9_thm uSess [4, 5, 6] 5
  refine ⟨by decide, ?_, h.2.1 (by decide), by decide, h.2.2.1 (by decide)⟩
  rw [h.1]
  decide

end FileCompressor
